import Mathlib

/-!
Verification development for the intent-recognition and dispatch core of the
Suna assistant backend (`backend/services/intent_recognition.py` and
`backend/services/assistant_service.py`).

The Python code is shallowly embedded: regular-expression matching is modelled
by a backtracking matcher with Python `re` priority semantics (leftmost match
position, alternatives tried left to right, greedy quantifiers), `float`
confidence arithmetic is modelled exactly over `ℚ`, and the coordinator's
`try/except` is modelled with `Except`.
-/

/-- The apostrophe character, used inside several pattern and message strings. -/
def apos : Char := Char.ofNat 39

/-- One-character string holding an apostrophe. -/
def aposS : String := String.singleton apos

/-- Python whitespace (`\s`, `str.strip`, `str.lower`-invariant set), ASCII fragment. -/
def pySpace (c : Char) : Bool :=
  c == ' ' || c == '\t' || c == '\n' || c == Char.ofNat 11 || c == Char.ofNat 12 || c == '\r'

/-- Model of Python `str.lower()` (ASCII case mapping). -/
def pyLower (l : List Char) : List Char := l.map Char.toLower

/-- Model of Python `str.strip()`: drop leading and trailing whitespace. -/
def pyStrip (l : List Char) : List Char :=
  ((l.dropWhile pySpace).reverse.dropWhile pySpace).reverse

/-- Does `h` start with `n`? (Helper for the substring test.) -/
def listStarts : List Char → List Char → Bool
  | [], _ => true
  | _ :: _, [] => false
  | a :: as, b :: bs => a == b && listStarts as bs

/-- Model of Python's `needle in haystack` substring test. -/
def pyIn (n : List Char) : List Char → Bool
  | [] => listStarts n []
  | c :: t => listStarts n (c :: t) || pyIn n t

/-- Character classes occurring in the repository's regular expressions.
`litI` is a case-insensitive literal (the entity extractors are compiled with
`re.IGNORECASE`); `alpha` is `[A-Z]`/`[a-z]` under `IGNORECASE`; `alphaSpace`
is `[A-Za-z\s]` under `IGNORECASE`; `notPunct` is `[^,.!?]`. -/
inductive CC
  | lit (c : Char)
  | litI (c : Char)
  | space
  | digit
  | alpha
  | alphaSpace
  | notPunct
  deriving DecidableEq, Repr

/-- Does a character satisfy a character class? -/
def ccEval : CC → Char → Bool
  | .lit a, c => c == a
  | .litI a, c => c.toLower == a.toLower
  | .space, c => pySpace c
  | .digit, c => '0' ≤ c && c ≤ '9'
  | .alpha, c => ('a' ≤ c && c ≤ 'z') || ('A' ≤ c && c ≤ 'Z')
  | .alphaSpace, c => ('a' ≤ c && c ≤ 'z') || ('A' ≤ c && c ≤ 'Z') || pySpace c
  | .notPunct, c => !(c == ',' || c == '.' || c == '!' || c == '?')

/-- Can some whitespace character satisfy this class? (Over-approximation used
to show that patterns cannot match whitespace-only text.) -/
def ccAcceptsSpace : CC → Bool
  | .lit a => pySpace a
  | .litI a => pySpace a.toLower
  | .space => true
  | .digit => false
  | .alpha => false
  | .alphaSpace => true
  | .notPunct => true

/-- Regular-expression abstract syntax: empty word, character class,
concatenation, prioritized alternation (left first), greedy Kleene star. -/
inductive RE
  | eps
  | cls (cc : CC)
  | cat (a b : RE)
  | alt (a b : RE)
  | star (r : RE)
  deriving DecidableEq, Repr

/-- Number of constructors of a regex (used to size the matcher's fuel). -/
def reSize : RE → Nat
  | .eps => 1
  | .cls _ => 1
  | .cat a b => reSize a + reSize b + 1
  | .alt a b => reSize a + reSize b + 1
  | .star r => reSize r + 1

/-- `true` only if every string matched by the regex contains at least one
character that is not accepted as whitespace. -/
def needsNonSpace : RE → Bool
  | .eps => false
  | .cls cc => !ccAcceptsSpace cc
  | .cat a b => needsNonSpace a || needsNonSpace b
  | .alt a b => needsNonSpace a && needsNonSpace b
  | .star _ => false

/-- Backtracking regex matcher in continuation-passing style, mirroring Python
`re` semantics: alternatives are tried left to right and `star` is greedy,
iterating only while it consumes input.  The continuation receives the suffix
left after the consumed prefix; `fuel` bounds the recursion depth and is chosen
large enough by `reSearch` that it is never exhausted. -/
def reMatch : Nat → RE → List Char → (List Char → Option (List Char)) → Option (List Char)
  | 0, _, _, _ => none
  | _ + 1, .eps, s, k => k s
  | _ + 1, .cls _, [], _ => none
  | _ + 1, .cls cc, c :: rest, k => if ccEval cc c then k rest else none
  | fuel + 1, .cat a b, s, k => reMatch fuel a s (fun s1 => reMatch fuel b s1 k)
  | fuel + 1, .alt a b, s, k =>
    match reMatch fuel a s k with
    | some res => some res
    | none => reMatch fuel b s k
  | fuel + 1, .star r, s, k =>
    match reMatch fuel r s
        (fun s1 => if s1.length < s.length then reMatch fuel (.star r) s1 k else k s1) with
    | some res => some res
    | none => k s

/-- Fuel that is always sufficient for `reMatch` on the given input. -/
def reFuel (r : RE) (s : List Char) : Nat := (s.length + 2) * (reSize r + 2)

/-- Scan for the leftmost match position, as `re.search` does; returns the
match's start offset (relative to the scan origin `i`) and the matched text. -/
def reSearchAux (r : RE) (fuel : Nat) : List Char → Nat → Option (Nat × List Char)
  | s, i =>
    match reMatch fuel r s some with
    | some rest => some (i, s.take (s.length - rest.length))
    | none =>
      match s with
      | [] => none
      | _ :: t => reSearchAux r fuel t (i + 1)

/-- Model of Python `re.search(pattern, s)`: `some (start, matched)` for the
leftmost match, `none` if the pattern matches nowhere. -/
def reSearch (r : RE) (s : List Char) : Option (Nat × List Char) :=
  reSearchAux r (reFuel r s) s 0

/-- Model of `re.finditer`: repeatedly search, resuming after each match
(advancing one character past an empty match), collecting `(start, matched)`. -/
def findIterAux (r : RE) : Nat → List Char → Nat → List (Nat × List Char)
  | 0, _, _ => []
  | n + 1, s, i =>
    match reSearch r s with
    | none => []
    | some (j, m) =>
      let adv := j + (if m.length = 0 then 1 else m.length)
      (i + j, m) :: findIterAux r n (s.drop adv) (i + adv)

/-- All matches of a pattern in a string, in order. -/
def findIter (r : RE) (s : List Char) : List (Nat × List Char) :=
  findIterAux r (s.length + 1) s 0

/-- Literal word: concatenation of exact characters. -/
def reStr (s : String) : RE :=
  s.toList.foldr (fun c r => .cat (.cls (.lit c)) r) .eps

/-- Literal word under `re.IGNORECASE`. -/
def reStrI (s : String) : RE :=
  s.toList.foldr (fun c r => .cat (.cls (.litI c)) r) .eps

/-- Prioritized alternation of a list of regexes (first alternative preferred). -/
def reAlts : List RE → RE
  | [] => .eps
  | [r] => r
  | r :: rs => .alt r (reAlts rs)

/-- Alternation of literal words. -/
def reAltStrs (l : List String) : RE := reAlts (l.map reStr)

/-- Alternation of case-insensitive literal words. -/
def reAltStrsI (l : List String) : RE := reAlts (l.map reStrI)

/-- `r?` (greedy option). -/
def reOpt (r : RE) : RE := .alt r .eps

/-- `r+`. -/
def rePlus (r : RE) : RE := .cat r (.star r)

/-- `\s+`. -/
def reW : RE := rePlus (.cls .space)

/-- `\s*`. -/
def reWs : RE := .star (.cls .space)

/-- `word` followed by optional `s`, as in `minutes?` (case-insensitive). -/
def rePluralI (w : String) : RE := .cat (reStrI w) (reOpt (reStrI "s"))

/-- `IntentType` enumeration from `intent_recognition.py`. -/
inductive IntentType
  | calendar
  | email
  | reminder
  | weather
  | news
  | search
  | general_chat
  | unknown
  deriving DecidableEq, Repr

/-- The `.value` string of each enum member. -/
def IntentType.value : IntentType → String
  | .calendar => "calendar"
  | .email => "email"
  | .reminder => "reminder"
  | .weather => "weather"
  | .news => "news"
  | .search => "search"
  | .general_chat => "general_chat"
  | .unknown => "unknown"

/-- `Entity` dataclass: an extracted entity. -/
structure Entity where
  type : String
  value : String
  confidence : ℚ
  start_pos : Nat
  end_pos : Nat
  deriving DecidableEq, Repr

/-- `Intent` dataclass: a recognized intent. -/
structure Intent where
  type : IntentType
  confidence : ℚ
  entities : List Entity
  raw_text : String
  action : Option String
  deriving DecidableEq, Repr

/-- One entry of the pattern catalog: trigger patterns plus action vocabulary. -/
structure PatternGroup where
  patterns : List RE
  actions : List String
  deriving DecidableEq, Repr

/-- Calendar trigger 1: `(?:schedule|create|add|set up|book)\s+(?:a\s+)?(?:meeting|appointment|event)`. -/
def calP1 : RE :=
  .cat (reAltStrs ["schedule", "create", "add", "set up", "book"])
    (.cat reW (.cat (reOpt (.cat (reStr "a") reW))
      (reAltStrs ["meeting", "appointment", "event"])))

/-- Calendar trigger 2: `(?:what|when)\s+(?:is|are)\s+(?:my|the)\s+(?:next|upcoming)\s+(?:meeting|appointment|event)`. -/
def calP2 : RE :=
  .cat (reAltStrs ["what", "when"])
    (.cat reW (.cat (reAltStrs ["is", "are"])
      (.cat reW (.cat (reAltStrs ["my", "the"])
        (.cat reW (.cat (reAltStrs ["next", "upcoming"])
          (.cat reW (reAltStrs ["meeting", "appointment", "event"]))))))))

/-- Calendar trigger 3: `(?:cancel|delete|remove)\s+(?:my|the)\s+(?:meeting|appointment|event)`. -/
def calP3 : RE :=
  .cat (reAltStrs ["cancel", "delete", "remove"])
    (.cat reW (.cat (reAltStrs ["my", "the"])
      (.cat reW (reAltStrs ["meeting", "appointment", "event"]))))

/-- Calendar trigger 4: `(?:reschedule|move|change)\s+(?:my|the)\s+(?:meeting|appointment|event)`. -/
def calP4 : RE :=
  .cat (reAltStrs ["reschedule", "move", "change"])
    (.cat reW (.cat (reAltStrs ["my", "the"])
      (.cat reW (reAltStrs ["meeting", "appointment", "event"]))))

/-- Calendar trigger 5: `(?:check|show|list)\s+(?:my|the)\s+(?:calendar|schedule|appointments)`. -/
def calP5 : RE :=
  .cat (reAltStrs ["check", "show", "list"])
    (.cat reW (.cat (reAltStrs ["my", "the"])
      (.cat reW (reAltStrs ["calendar", "schedule", "appointments"]))))

/-- Email trigger 1: `(?:send|compose|write)\s+(?:an?\s+)?email`. -/
def emlP1 : RE :=
  .cat (reAltStrs ["send", "compose", "write"])
    (.cat reW (.cat (reOpt (.cat (.cat (reStr "a") (reOpt (reStr "n"))) reW))
      (reStr "email")))

/-- Email trigger 2: `(?:check|read|show)\s+(?:my\s+)?(?:email|inbox|messages)`. -/
def emlP2 : RE :=
  .cat (reAltStrs ["check", "read", "show"])
    (.cat reW (.cat (reOpt (.cat (reStr "my") reW))
      (reAltStrs ["email", "inbox", "messages"])))

/-- Email trigger 3: `(?:reply|respond)\s+to\s+(?:the\s+)?email`. -/
def emlP3 : RE :=
  .cat (reAltStrs ["reply", "respond"])
    (.cat reW (.cat (reStr "to")
      (.cat reW (.cat (reOpt (.cat (reStr "the") reW)) (reStr "email")))))

/-- Email trigger 4: `(?:forward|share)\s+(?:this\s+|the\s+)?email`. -/
def emlP4 : RE :=
  .cat (reAltStrs ["forward", "share"])
    (.cat reW (.cat (reOpt (.alt (.cat (reStr "this") reW) (.cat (reStr "the") reW)))
      (reStr "email")))

/-- Email trigger 5: `(?:delete|remove)\s+(?:this\s+|the\s+)?email`. -/
def emlP5 : RE :=
  .cat (reAltStrs ["delete", "remove"])
    (.cat reW (.cat (reOpt (.alt (.cat (reStr "this") reW) (.cat (reStr "the") reW)))
      (reStr "email")))

/-- Reminder trigger 1: `(?:remind|alert)\s+me\s+(?:to|about)`. -/
def remP1 : RE :=
  .cat (reAltStrs ["remind", "alert"])
    (.cat reW (.cat (reStr "me") (.cat reW (reAltStrs ["to", "about"]))))

/-- Reminder trigger 2: `(?:set|create|add)\s+(?:a\s+)?(?:reminder|alert|notification)`. -/
def remP2 : RE :=
  .cat (reAltStrs ["set", "create", "add"])
    (.cat reW (.cat (reOpt (.cat (reStr "a") reW))
      (reAltStrs ["reminder", "alert", "notification"])))

/-- Reminder trigger 3: `(?:don't\s+forget|remember)\s+to`. -/
def remP3 : RE :=
  .cat (.alt (.cat (reStr ("don" ++ aposS ++ "t")) (.cat reW (reStr "forget")))
      (reStr "remember"))
    (.cat reW (reStr "to"))

/-- Reminder trigger 4: `(?:what|show)\s+(?:are\s+)?(?:my\s+)?(?:reminders|alerts|tasks)`. -/
def remP4 : RE :=
  .cat (reAltStrs ["what", "show"])
    (.cat reW (.cat (reOpt (.cat (reStr "are") reW))
      (.cat (reOpt (.cat (reStr "my") reW))
        (reAltStrs ["reminders", "alerts", "tasks"]))))

/-- Reminder trigger 5: `(?:cancel|delete|remove)\s+(?:the\s+)?(?:reminder|alert)`. -/
def remP5 : RE :=
  .cat (reAltStrs ["cancel", "delete", "remove"])
    (.cat reW (.cat (reOpt (.cat (reStr "the") reW))
      (reAltStrs ["reminder", "alert"])))

/-- Weather trigger 1: `(?:what|how)\s+(?:is|will)\s+(?:the\s+)?weather`. -/
def weaP1 : RE :=
  .cat (reAltStrs ["what", "how"])
    (.cat reW (.cat (reAltStrs ["is", "will"])
      (.cat reW (.cat (reOpt (.cat (reStr "the") reW)) (reStr "weather")))))

/-- Weather trigger 2: `(?:weather\s+)?(?:forecast|report|conditions)`. -/
def weaP2 : RE :=
  .cat (reOpt (.cat (reStr "weather") reW))
    (reAltStrs ["forecast", "report", "conditions"])

/-- Weather trigger 3: `(?:is\s+it|will\s+it)\s+(?:rain|snow|sunny|cloudy)`. -/
def weaP3 : RE :=
  .cat (.alt (.cat (reStr "is") (.cat reW (reStr "it")))
      (.cat (reStr "will") (.cat reW (reStr "it"))))
    (.cat reW (reAltStrs ["rain", "snow", "sunny", "cloudy"]))

/-- Weather trigger 4: `(?:temperature|temp)\s+(?:today|tomorrow|outside)`. -/
def weaP4 : RE :=
  .cat (reAltStrs ["temperature", "temp"])
    (.cat reW (reAltStrs ["today", "tomorrow", "outside"]))

/-- Weather trigger 5: `(?:should\s+i|do\s+i\s+need)\s+(?:bring\s+)?(?:an?\s+)?(?:umbrella|jacket|coat)`. -/
def weaP5 : RE :=
  .cat (.alt (.cat (reStr "should") (.cat reW (reStr "i")))
      (.cat (reStr "do") (.cat reW (.cat (reStr "i") (.cat reW (reStr "need"))))))
    (.cat reW (.cat (reOpt (.cat (reStr "bring") reW))
      (.cat (reOpt (.cat (.cat (reStr "a") (reOpt (reStr "n"))) reW))
        (reAltStrs ["umbrella", "jacket", "coat"]))))

/-- News trigger 1: `(?:what|show)\s+(?:is|are)\s+(?:the\s+)?(?:latest\s+)?news`. -/
def newP1 : RE :=
  .cat (reAltStrs ["what", "show"])
    (.cat reW (.cat (reAltStrs ["is", "are"])
      (.cat reW (.cat (reOpt (.cat (reStr "the") reW))
        (.cat (reOpt (.cat (reStr "latest") reW)) (reStr "news"))))))

/-- News trigger 2: `(?:news|headlines|updates)\s+(?:about|on|for)`. -/
def newP2 : RE :=
  .cat (reAltStrs ["news", "headlines", "updates"])
    (.cat reW (reAltStrs ["about", "on", "for"]))

/-- News trigger 3: `(?:what|anything)\s+(?:new|happening)\s+(?:in|about|with)`. -/
def newP3 : RE :=
  .cat (reAltStrs ["what", "anything"])
    (.cat reW (.cat (reAltStrs ["new", "happening"])
      (.cat reW (reAltStrs ["in", "about", "with"]))))

/-- News trigger 4: `(?:current\s+)?(?:events|affairs|happenings)`. -/
def newP4 : RE :=
  .cat (reOpt (.cat (reStr "current") reW))
    (reAltStrs ["events", "affairs", "happenings"])

/-- News trigger 5: `(?:breaking|latest)\s+news`. -/
def newP5 : RE :=
  .cat (reAltStrs ["breaking", "latest"]) (.cat reW (reStr "news"))

/-- Search trigger 1: `(?:search|look up|find|google)\s+(?:for\s+)?`. -/
def seaP1 : RE :=
  .cat (reAltStrs ["search", "look up", "find", "google"])
    (.cat reW (reOpt (.cat (reStr "for") reW)))

/-- Search trigger 2: `(?:what|who|where|when|why|how)\s+(?:is|are|was|were|do|does|did)`. -/
def seaP2 : RE :=
  .cat (reAltStrs ["what", "who", "where", "when", "why", "how"])
    (.cat reW (reAltStrs ["is", "are", "was", "were", "do", "does", "did"]))

/-- Search trigger 3: `(?:tell|show)\s+me\s+(?:about|more\s+about)`. -/
def seaP3 : RE :=
  .cat (reAltStrs ["tell", "show"])
    (.cat reW (.cat (reStr "me")
      (.cat reW (.alt (reStr "about") (.cat (reStr "more") (.cat reW (reStr "about")))))))

/-- Search trigger 4: `(?:information|info|details)\s+(?:about|on|for)`. -/
def seaP4 : RE :=
  .cat (reAltStrs ["information", "info", "details"])
    (.cat reW (reAltStrs ["about", "on", "for"]))

/-- Search trigger 5: `(?:can\s+you\s+)?(?:help\s+me\s+)?(?:find|locate)`. -/
def seaP5 : RE :=
  .cat (reOpt (.cat (reStr "can") (.cat reW (.cat (reStr "you") reW))))
    (.cat (reOpt (.cat (reStr "help") (.cat reW (.cat (reStr "me") reW))))
      (reAltStrs ["find", "locate"]))

/-- The pattern catalog of `IntentRecognizer._load_patterns`, in declaration
order (Calendar, Email, Reminder, Weather, News, Search). -/
def patternTable : List (IntentType × List PatternGroup) :=
  [ (.calendar, [⟨[calP1, calP2, calP3, calP4, calP5],
      ["create", "read", "update", "delete", "list"]⟩]),
    (.email, [⟨[emlP1, emlP2, emlP3, emlP4, emlP5],
      ["send", "read", "reply", "forward", "delete"]⟩]),
    (.reminder, [⟨[remP1, remP2, remP3, remP4, remP5],
      ["create", "read", "update", "delete", "list"]⟩]),
    (.weather, [⟨[weaP1, weaP2, weaP3, weaP4, weaP5],
      ["current", "forecast", "conditions"]⟩]),
    (.news, [⟨[newP1, newP2, newP3, newP4, newP5],
      ["headlines", "search", "category"]⟩]),
    (.search, [⟨[seaP1, seaP2, seaP3, seaP4, seaP5],
      ["web_search", "information", "lookup"]⟩]) ]

/-- Datetime extractor 1: `(?:today|tomorrow|yesterday)`. -/
def dtP1 : RE := reAltStrsI ["today", "tomorrow", "yesterday"]

/-- Datetime extractor 2: weekday names. -/
def dtP2 : RE :=
  reAltStrsI ["monday", "tuesday", "wednesday", "thursday", "friday", "saturday", "sunday"]

/-- Datetime extractor 3: month names. -/
def dtP3 : RE :=
  reAltStrsI ["january", "february", "march", "april", "may", "june", "july",
    "august", "september", "october", "november", "december"]

/-- Datetime extractor 4: `\d{1,2}:\d{2}(?:\s*(?:am|pm))?`. -/
def dtP4 : RE :=
  .cat (.cls .digit) (.cat (reOpt (.cls .digit))
    (.cat (reStrI ":") (.cat (.cls .digit) (.cat (.cls .digit)
      (reOpt (.cat reWs (reAltStrsI ["am", "pm"])))))))

/-- Datetime extractor 5: `\d{1,2}/\d{1,2}(?:/\d{2,4})?`. -/
def dtP5 : RE :=
  .cat (.cls .digit) (.cat (reOpt (.cls .digit))
    (.cat (reStrI "/") (.cat (.cls .digit) (.cat (reOpt (.cls .digit))
      (reOpt (.cat (reStrI "/") (.cat (.cls .digit) (.cat (.cls .digit)
        (reOpt (.cat (.cls .digit) (reOpt (.cls .digit))))))))))))

/-- Datetime extractor 6: `(?:in\s+)?\d+\s+(?:minutes?|hours?|days?|weeks?|months?)`. -/
def dtP6 : RE :=
  .cat (reOpt (.cat (reStrI "in") reW))
    (.cat (rePlus (.cls .digit)) (.cat reW
      (reAlts [rePluralI "minute", rePluralI "hour", rePluralI "day",
        rePluralI "week", rePluralI "month"])))

/-- Datetime extractor 7: `(?:next|this)\s+(?:week|month|year)`. -/
def dtP7 : RE :=
  .cat (reAltStrsI ["next", "this"]) (.cat reW (reAltStrsI ["week", "month", "year"]))

/-- Datetime extractor 8: `(?:at\s+)?\d{1,2}(?::\d{2})?\s*(?:am|pm)`. -/
def dtP8 : RE :=
  .cat (reOpt (.cat (reStrI "at") reW))
    (.cat (.cls .digit) (.cat (reOpt (.cls .digit))
      (.cat (reOpt (.cat (reStrI ":") (.cat (.cls .digit) (.cls .digit))))
        (.cat reWs (reAltStrsI ["am", "pm"])))))

/-- Location extractor 1: `(?:in|at|near|around)\s+[A-Z][a-z]+(?:\s+[A-Z][a-z]+)*`. -/
def locP1 : RE :=
  .cat (reAltStrsI ["in", "at", "near", "around"])
    (.cat reW (.cat (.cls .alpha) (.cat (rePlus (.cls .alpha))
      (.star (.cat reW (.cat (.cls .alpha) (rePlus (.cls .alpha))))))))

/-- Location extractor 2: `[A-Z][a-z]+,\s*[A-Z]{2}`. -/
def locP2 : RE :=
  .cat (.cls .alpha) (.cat (rePlus (.cls .alpha))
    (.cat (reStrI ",") (.cat reWs (.cat (.cls .alpha) (.cls .alpha)))))

/-- Location extractor 3: `\d+\s+[A-Za-z\s]+(?:Street|St|Avenue|Ave|Road|Rd|Boulevard|Blvd)`. -/
def locP3 : RE :=
  .cat (rePlus (.cls .digit)) (.cat reW (.cat (rePlus (.cls .alphaSpace))
    (reAltStrsI ["Street", "St", "Avenue", "Ave", "Road", "Rd", "Boulevard", "Blvd"])))

/-- Person extractor 1: `(?:with|to|from)\s+[A-Z][a-z]+(?:\s+[A-Z][a-z]+)*`. -/
def perP1 : RE :=
  .cat (reAltStrsI ["with", "to", "from"])
    (.cat reW (.cat (.cls .alpha) (.cat (rePlus (.cls .alpha))
      (.star (.cat reW (.cat (.cls .alpha) (rePlus (.cls .alpha))))))))

/-- Person extractor 2: `[A-Z][a-z]+@[a-z]+\.[a-z]+`. -/
def perP2 : RE :=
  .cat (.cls .alpha) (.cat (rePlus (.cls .alpha))
    (.cat (reStrI "@") (.cat (rePlus (.cls .alpha))
      (.cat (reStrI ".") (rePlus (.cls .alpha))))))

/-- Duration extractor 1: `\d+\s+(?:minutes?|hours?|days?|weeks?|months?|years?)`. -/
def durP1 : RE :=
  .cat (rePlus (.cls .digit)) (.cat reW
    (reAlts [rePluralI "minute", rePluralI "hour", rePluralI "day",
      rePluralI "week", rePluralI "month", rePluralI "year"]))

/-- Duration extractor 2: `(?:for\s+)?\d+\s*(?:min|hr|h|d|w|m|y)`. -/
def durP2 : RE :=
  .cat (reOpt (.cat (reStrI "for") reW))
    (.cat (rePlus (.cls .digit)) (.cat reWs
      (reAltStrsI ["min", "hr", "h", "d", "w", "m", "y"])))

/-- Duration extractor 3: `(?:half\s+an?\s+|quarter\s+)?hour`. -/
def durP3 : RE :=
  .cat (reOpt (.alt
      (.cat (reStrI "half") (.cat reW (.cat (.cat (reStrI "a") (reOpt (reStrI "n"))) reW)))
      (.cat (reStrI "quarter") reW)))
    (reStrI "hour")

/-- Topic extractor 1: `(?:about|regarding|concerning)\s+([^,.!?]+)`. -/
def topP1 : RE :=
  .cat (reAltStrsI ["about", "regarding", "concerning"])
    (.cat reW (rePlus (.cls .notPunct)))

/-- Topic extractor 2: `(?:subject|topic):\s*([^,.!?]+)`. -/
def topP2 : RE :=
  .cat (reAltStrsI ["subject", "topic"])
    (.cat (reStrI ":") (.cat reWs (rePlus (.cls .notPunct))))

/-- The entity-extractor table of `IntentRecognizer._load_entity_extractors`, in
declaration order (datetime, location, person, duration, topic). -/
def entityExtractors : List (String × List RE) :=
  [ ("datetime", [dtP1, dtP2, dtP3, dtP4, dtP5, dtP6, dtP7, dtP8]),
    ("location", [locP1, locP2, locP3]),
    ("person", [perP1, perP2]),
    ("duration", [durP1, durP2, durP3]),
    ("topic", [topP1, topP2]) ]

/-- `IntentRecognizer._calculate_confidence`: base 0.8, +0.15 for an exact
match of the whole text, plus 0.1 times the match/text length ratio, clamped
at 1.0.  `m` is the matched substring, `t` the (normalized) text. -/
def calcConfidence (m t : List Char) : ℚ :=
  min (0.8 + (if m = t then 0.15 else 0) + ((m.length : ℚ) / (t.length : ℚ)) * 0.1) 1.0

/-- `IntentRecognizer._extract_action`: first action literally contained in the
text, else a fixed keyword-family fallback, else the first listed action. -/
def extractAction (tl : List Char) (possible_actions : List String) : Option String :=
  match possible_actions.find? (fun a => pyIn a.toList tl) with
  | some a => some a
  | none =>
    if ["create", "add", "set", "schedule", "send", "compose"].any
        (fun w => pyIn w.toList tl) then some "create"
    else if ["show", "list", "check", "read", "what", "when"].any
        (fun w => pyIn w.toList tl) then some "read"
    else if ["update", "change", "modify", "edit", "reschedule"].any
        (fun w => pyIn w.toList tl) then some "update"
    else if ["delete", "remove", "cancel"].any
        (fun w => pyIn w.toList tl) then some "delete"
    else possible_actions.head?

/-- Running best candidate of `recognize_intent`'s classification loop. -/
structure Best where
  intent : IntentType
  confidence : ℚ
  action : Option String
  deriving DecidableEq, Repr

/-- One step of the classification loop: try one trigger pattern and replace
the running best only on strictly greater confidence. -/
def stepPattern (tl : List Char) (it : IntentType) (acts : List String)
    (b : Best) (p : RE) : Best :=
  match reSearch p tl with
  | none => b
  | some (_, m) =>
    let conf := calcConfidence m tl
    if b.confidence < conf then ⟨it, conf, extractAction tl acts⟩ else b

/-- The classification triple loop of `recognize_intent` (intents in catalog
order, then pattern groups, then patterns). -/
def classifyBest (tl : List Char) : Best :=
  patternTable.foldl
    (fun b itg => itg.2.foldl
      (fun b g => g.patterns.foldl (fun b p => stepPattern tl itg.1 g.actions b p) b) b)
    ⟨.unknown, 0, none⟩

/-- The conversational fragments of `IntentRecognizer._is_general_chat`. -/
def chatIndicators : List String :=
  ["hello", "hi", "hey", "good morning", "good afternoon", "good evening",
   "how are you", "what" ++ aposS ++ "s up", "thanks", "thank you", "please", "sorry",
   "yes", "no", "okay", "ok", "sure", "maybe", "i think", "i believe"]

/-- `IntentRecognizer._is_general_chat`. -/
def isGeneralChat (tl : List Char) : Bool :=
  chatIndicators.any (fun ind => pyIn ind.toList tl)

/-- `IntentRecognizer._extract_entities`: intent-independent pass over the
original-case text, iterating kinds, then patterns, then matches. -/
def extractEntities (text : String) : List Entity :=
  entityExtractors.foldl
    (fun acc pr => pr.2.foldl
      (fun acc2 p => acc2 ++ (findIter p text.toList).map
        (fun sm => ⟨pr.1, String.mk (pyStrip sm.2), 0.8, sm.1, sm.1 + sm.2.length⟩))
      acc)
    []

/-- Lower-cased, stripped text used for classification. -/
def normText (text : String) : List Char := pyStrip (pyLower text.toList)

/-- `IntentRecognizer.recognize_intent`. -/
def recognizeIntent (text : String) : Intent :=
  let tl := normText text
  let b := classifyBest tl
  let b := if b.intent = .unknown ∧ isGeneralChat tl then
      { intent := .general_chat, confidence := 0.7, action := b.action } else b
  { type := b.intent, confidence := b.confidence, entities := extractEntities text,
    raw_text := text, action := b.action }

/-- Per-intent requirement table of `IntentRecognizer.get_required_entities`. -/
def reqTable : IntentType → List (String × List String)
  | .calendar => [("create", ["datetime"]), ("read", []), ("update", ["datetime"]),
      ("delete", ["datetime"]), ("list", [])]
  | .email => [("send", ["person", "topic"]), ("read", []), ("reply", ["topic"]),
      ("forward", ["person"]), ("delete", [])]
  | .reminder => [("create", ["datetime", "topic"]), ("read", []),
      ("update", ["datetime", "topic"]), ("delete", ["topic"]), ("list", [])]
  | .weather => [("current", []), ("forecast", ["datetime"]), ("conditions", ["location"])]
  | .news => [("headlines", []), ("search", ["topic"]), ("category", ["topic"])]
  | .search => [("web_search", ["topic"]), ("information", ["topic"]), ("lookup", ["topic"])]
  | _ => []

/-- `IntentRecognizer.get_required_entities`: unknown pairs (including an
absent action) give the empty list. -/
def getRequiredEntities (it : IntentType) (action : Option String) : List String :=
  match action with
  | none => []
  | some a => ((reqTable it).lookup a).getD []

/-- `AssistantRequest` dataclass; the context mapping is kept abstract. -/
structure AssistantRequest (Ctx : Type) where
  text : String
  user_id : String
  context : Ctx

/-- `HandlerResponse` returned by a capability handler; the `data` payload is
kept abstract. -/
structure HandlerResponse (Data : Type) where
  success : Bool
  message : String
  data : Option Data
  error : Option String
  requires_followup : Bool
  followup_question : Option String
  deriving DecidableEq, Repr

/-- `AssistantResponse` dataclass. -/
structure AssistantResponse (Data : Type) where
  success : Bool
  message : String
  intent_type : String
  confidence : ℚ
  data : Option Data
  error : Option String
  requires_followup : Bool
  followup_question : Option String
  is_assistant_task : Bool
  deriving DecidableEq, Repr

/-- A capability handler: `execute(intent, entities, context)`, which may raise
(modelled by `Except` with the exception's string description). -/
def Handler (Ctx Data : Type) : Type :=
  Intent → List Entity → Ctx → Except String (HandlerResponse Data)

/-- The handler registry built in `AssistantService.__init__`: handlers are
registered only for Weather, Reminder and Search. -/
def refHandlers {Ctx Data : Type} (w r s : Handler Ctx Data) :
    IntentType → Option (Handler Ctx Data)
  | .weather => some w
  | .reminder => some r
  | .search => some s
  | _ => none

/-- The coordinator's confidence threshold. -/
def confidenceThreshold : ℚ := 0.6

/-- The threshold gate of `process_request` step 2. -/
def isAssistantTaskGate (i : Intent) : Bool :=
  i.type ≠ .unknown ∧ i.type ≠ .general_chat ∧ confidenceThreshold ≤ i.confidence

/-- `AssistantService._check_missing_entities`. -/
def checkMissingEntities (entities : List Entity) (required_entities : List String) :
    List String :=
  let entity_types := entities.map (·.type)
  required_entities.filter (fun req => !entity_types.contains req)

/-- The follow-up question template table of
`AssistantService._generate_followup_question`. -/
def questionsFor : IntentType → List (String × String)
  | .weather =>
    [("location", "Which city or location would you like the weather for?"),
     ("datetime", "For what date would you like the weather forecast?")]
  | .reminder =>
    [("topic", "What would you like me to remind you about?"),
     ("datetime", "When would you like to be reminded? (e.g., " ++ aposS ++
        "tomorrow at 3pm" ++ aposS ++ ", " ++ aposS ++ "in 2 hours" ++ aposS ++ ")")]
  | .search => [("topic", "What would you like me to search for?")]
  | .calendar =>
    [("datetime", "When would you like to schedule this? (e.g., " ++ aposS ++
        "tomorrow at 2pm" ++ aposS ++ ", " ++ aposS ++ "next Monday" ++ aposS ++ ")"),
     ("topic", "What is this meeting or event about?")]
  | .email =>
    [("person", "Who would you like to send this email to?"),
     ("topic", "What is the subject or content of the email?")]
  | _ => []

/-- `AssistantService._generate_followup_question` (the `action` argument is
accepted but, as in the source, not used). -/
def generateFollowupQuestion (it : IntentType) (_action : Option String)
    (missing_entities : List String) : String :=
  let intent_questions := questionsFor it
  match missing_entities with
  | [e] => (intent_questions.lookup e).getD
      ("I need more information about the " ++ e ++ ".")
  | _ => "I need to know: " ++
      String.intercalate ", "
        (missing_entities.map (fun e => (intent_questions.lookup e).getD e))

/-- The fixed general-conversation message of step 2. -/
def generalChatMessage : String :=
  "This doesn" ++ aposS ++
  "t appear to be a personal assistant task. I" ++ aposS ++
  "ll handle it as a general conversation."

/-- The fixed apology message of the exception branch. -/
def errorMessage : String :=
  "I encountered an error while processing your request. Please try again."

/-- The body of `AssistantService.process_request` (steps 1 to 5); a raised
exception surfaces as `Except.error`. -/
def processRequestBody {Ctx Data : Type} (handlers : IntentType → Option (Handler Ctx Data))
    (request : AssistantRequest Ctx) : Except String (AssistantResponse Data) := do
  let intent := recognizeIntent request.text
  if !isAssistantTaskGate intent then
    return { success := true, message := generalChatMessage,
             intent_type := intent.type.value, confidence := intent.confidence,
             data := none, error := none, requires_followup := false,
             followup_question := none, is_assistant_task := false }
  match handlers intent.type with
  | none =>
    return { success := false,
             message := "I understand you want help with " ++ intent.type.value ++
               ", but that feature isn" ++ aposS ++ "t available yet.",
             intent_type := intent.type.value, confidence := intent.confidence,
             data := none,
             error := some ("No handler available for " ++ intent.type.value),
             requires_followup := false, followup_question := none,
             is_assistant_task := true }
  | some handler =>
    let required_entities := getRequiredEntities intent.type intent.action
    let missing_entities := checkMissingEntities intent.entities required_entities
    if missing_entities ≠ [] then
      return { success := true,
               message := "I need a bit more information to help you with that.",
               intent_type := intent.type.value, confidence := intent.confidence,
               data := none, error := none, requires_followup := true,
               followup_question :=
                 some (generateFollowupQuestion intent.type intent.action missing_entities),
               is_assistant_task := true }
    let handler_response ← handler intent intent.entities request.context
    return { success := handler_response.success, message := handler_response.message,
             intent_type := intent.type.value, confidence := intent.confidence,
             data := handler_response.data, error := handler_response.error,
             requires_followup := handler_response.requires_followup,
             followup_question := handler_response.followup_question,
             is_assistant_task := true }

/-- `AssistantService.process_request`: the body wrapped in the
`try/except` boundary that converts any raised exception into a terminal
error response. -/
def processRequest {Ctx Data : Type} (handlers : IntentType → Option (Handler Ctx Data))
    (request : AssistantRequest Ctx) : AssistantResponse Data :=
  match processRequestBody handlers request with
  | .ok response => response
  | .error e =>
    { success := false, message := errorMessage, intent_type := "error",
      confidence := 0, data := none, error := some e, requires_followup := false,
      followup_question := none, is_assistant_task := true }

/-- A classification candidate: intent, candidate confidence, resolved action. -/
abbrev Cand := IntentType × ℚ × Option String

/-- The `Best` record a candidate would install. -/
def ofCand (c : Cand) : Best := ⟨c.1, c.2.1, c.2.2⟩

/-- The update rule of the classification loop: install a candidate only on
strictly greater confidence. -/
def updBest (b : Best) (c : Cand) : Best :=
  if b.confidence < c.2.1 then ofCand c else b

/-- The flattened trigger sequence in the loop's traversal order: intents in
catalog-declaration order, then patterns in declaration order, each carrying
its group's action vocabulary. -/
def triggerList : List (IntentType × RE × List String) :=
  [ (.calendar, calP1, ["create", "read", "update", "delete", "list"]),
    (.calendar, calP2, ["create", "read", "update", "delete", "list"]),
    (.calendar, calP3, ["create", "read", "update", "delete", "list"]),
    (.calendar, calP4, ["create", "read", "update", "delete", "list"]),
    (.calendar, calP5, ["create", "read", "update", "delete", "list"]),
    (.email, emlP1, ["send", "read", "reply", "forward", "delete"]),
    (.email, emlP2, ["send", "read", "reply", "forward", "delete"]),
    (.email, emlP3, ["send", "read", "reply", "forward", "delete"]),
    (.email, emlP4, ["send", "read", "reply", "forward", "delete"]),
    (.email, emlP5, ["send", "read", "reply", "forward", "delete"]),
    (.reminder, remP1, ["create", "read", "update", "delete", "list"]),
    (.reminder, remP2, ["create", "read", "update", "delete", "list"]),
    (.reminder, remP3, ["create", "read", "update", "delete", "list"]),
    (.reminder, remP4, ["create", "read", "update", "delete", "list"]),
    (.reminder, remP5, ["create", "read", "update", "delete", "list"]),
    (.weather, weaP1, ["current", "forecast", "conditions"]),
    (.weather, weaP2, ["current", "forecast", "conditions"]),
    (.weather, weaP3, ["current", "forecast", "conditions"]),
    (.weather, weaP4, ["current", "forecast", "conditions"]),
    (.weather, weaP5, ["current", "forecast", "conditions"]),
    (.news, newP1, ["headlines", "search", "category"]),
    (.news, newP2, ["headlines", "search", "category"]),
    (.news, newP3, ["headlines", "search", "category"]),
    (.news, newP4, ["headlines", "search", "category"]),
    (.news, newP5, ["headlines", "search", "category"]),
    (.search, seaP1, ["web_search", "information", "lookup"]),
    (.search, seaP2, ["web_search", "information", "lookup"]),
    (.search, seaP3, ["web_search", "information", "lookup"]),
    (.search, seaP4, ["web_search", "information", "lookup"]),
    (.search, seaP5, ["web_search", "information", "lookup"]) ]

/-- The candidates the loop examines for a given normalized text, in traversal
order: one per trigger pattern that matches. -/
def matchedCands (tl : List Char) : List Cand :=
  triggerList.filterMap (fun t => (reSearch t.2.1 tl).map
    (fun sm => ((t.1, calcConfidence sm.2 tl, extractAction tl t.2.2) : Cand)))

/-- Specification-side selection: the earliest element of the list attaining
the maximal confidence (a later element wins only by strict improvement). -/
def firstMaxCand : List Cand → Option Cand
  | [] => none
  | c :: cs =>
    match firstMaxCand cs with
    | none => some c
    | some d => if c.2.1 < d.2.1 then some d else some c

/-- The example utterance `"What's the weather like?"` listed for the weather
capability in `AssistantService.get_capabilities`. -/
def c1text : String := "What" ++ aposS ++ "s the weather like?"

/-- The example utterances advertised for the weather capability by
`AssistantService.get_capabilities`. -/
def capabilitiesWeatherExamples : List String :=
  [c1text, "Will it rain tomorrow?", "Weather forecast for New York"]

/-- The input text of the reminder follow-up scenario. -/
def remindText : String := "Remind me to call mom"

/-- The combined follow-up question generated for the reminder scenario. -/
def c6Question : String :=
  "I need to know: When would you like to be reminded? (e.g., " ++ aposS ++
  "tomorrow at 3pm" ++ aposS ++ ", " ++ aposS ++ "in 2 hours" ++ aposS ++
  "), What would you like me to remind you about?"

/-- A trivial capability handler that always succeeds (used to instantiate the
registry at concrete inputs). -/
def okUnitHandler : Handler Unit Unit :=
  fun _ _ _ => .ok ⟨true, "", none, none, false, none⟩

/-- A capability handler that raises (used to exercise the exception branch). -/
def boomHandler : Handler Unit Unit := fun _ _ _ => .error "boom"

theorem calcConfidence_ge (m t : List Char) : (0.8 : ℚ) ≤ calcConfidence m t := by
  unfold calcConfidence
  have h1 : (0 : ℚ) ≤ (if m = t then (0.15 : ℚ) else 0) := by split <;> norm_num
  have h2 : (0 : ℚ) ≤ ((m.length : ℚ) / (t.length : ℚ)) * 0.1 := by positivity
  exact le_min (by linarith) (by norm_num)

theorem calcConfidence_le (m t : List Char) : calcConfidence m t ≤ 1 := by
  unfold calcConfidence
  exact (min_le_right _ _).trans (by norm_num)

/-- C5: for every trigger-pattern match against the normalized non-empty text,
the candidate confidence is the clamped base-plus-boosts formula
`min(0.8 + (0.15 if exact) + 0.1 * (matchLength / textLength), 1)`. -/
theorem c5_confidence_formula (p : RE) (tl : List Char) (st : Nat) (m : List Char)
    (_hsearch : reSearch p tl = some (st, m)) (_hne : tl ≠ []) :
    calcConfidence m tl =
      min (0.8 + (if m = tl then 0.15 else 0) + 0.1 * ((m.length : ℚ) / (tl.length : ℚ)))
        1 := by
  unfold calcConfidence
  norm_num [mul_comm]

theorem c5_confidence_formula_witness :
    reSearch (reStr "a") ['a', 'b'] = some (0, ['a']) ∧ (['a', 'b'] : List Char) ≠ [] ∧
    calcConfidence ['a'] ['a', 'b'] =
      min (0.8 + (if (['a'] : List Char) = ['a', 'b'] then 0.15 else 0) +
        0.1 * (((['a'] : List Char).length : ℚ) / (((['a', 'b'] : List Char)).length : ℚ)))
        1 :=
  ⟨by decide, by decide,
    c5_confidence_formula (reStr "a") ['a', 'b'] 0 ['a'] (by decide) (by decide)⟩

/-- C2: the coordinator never lets an exception escape: whenever the body of
`process_request` raises, the returned value is the fixed terminal error
response carrying the failure description. -/
theorem c2_exceptions_contained (Ctx Data : Type)
    (handlers : IntentType → Option (Handler Ctx Data)) (req : AssistantRequest Ctx)
    (e : String) (h : processRequestBody handlers req = .error e) :
    processRequest handlers req =
      ⟨false, errorMessage, "error", 0, none, some e, false, none, true⟩ := by
  unfold processRequest
  rw [h]

set_option maxRecDepth 100000 in
theorem c2_exceptions_contained_witness :
    processRequestBody (refHandlers boomHandler okUnitHandler okUnitHandler)
      ⟨"weather report", "u", ()⟩ = .error "boom" ∧
    processRequest (refHandlers boomHandler okUnitHandler okUnitHandler)
      ⟨"weather report", "u", ()⟩ =
      ⟨false, errorMessage, "error", 0, none, some "boom", false, none, true⟩ :=
  ⟨by with_unfolding_all rfl,
    c2_exceptions_contained Unit Unit (refHandlers boomHandler okUnitHandler okUnitHandler)
      ⟨"weather report", "u", ()⟩ "boom" (by with_unfolding_all rfl)⟩

theorem pySpace_cases (c : Char) (h : pySpace c = true) :
    c = ' ' ∨ c = '\t' ∨ c = '\n' ∨ c = Char.ofNat 11 ∨ c = Char.ofNat 12 ∨ c = '\r' := by
  simp only [pySpace, Bool.or_eq_true, beq_iff_eq] at h
  tauto

theorem toLower_space (c : Char) (h : pySpace c = true) : c.toLower = c := by
  rcases pySpace_cases c h with rfl | rfl | rfl | rfl | rfl | rfl <;> decide

theorem ccEval_space_false (cc : CC) (c : Char) (hcc : ccAcceptsSpace cc = false)
    (hc : pySpace c = true) : ccEval cc c = false := by
  cases cc with
  | lit a =>
    simp only [ccAcceptsSpace] at hcc
    simp only [ccEval, beq_eq_false_iff_ne, ne_eq]
    rintro rfl
    rw [hc] at hcc
    exact Bool.noConfusion hcc
  | litI a =>
    simp only [ccAcceptsSpace] at hcc
    simp only [ccEval, beq_eq_false_iff_ne, ne_eq]
    intro h
    rw [← h, toLower_space c hc, hc] at hcc
    exact Bool.noConfusion hcc
  | space => exact Bool.noConfusion hcc
  | digit => rcases pySpace_cases c hc with rfl | rfl | rfl | rfl | rfl | rfl <;> decide
  | alpha => rcases pySpace_cases c hc with rfl | rfl | rfl | rfl | rfl | rfl <;> decide
  | alphaSpace => exact Bool.noConfusion hcc
  | notPunct => exact Bool.noConfusion hcc

theorem reMatch_none_of_spaces (fuel : Nat) :
    ∀ (r : RE) (s : List Char) (k : List Char → Option (List Char)),
    (∀ c ∈ s, pySpace c = true) →
    (∀ t, (∀ c ∈ t, pySpace c = true) → k t = none) →
    reMatch fuel r s k = none := by
  induction fuel with
  | zero => intro r s k _ _; rfl
  | succ fuel ih =>
    intro r s k hs hk
    cases r with
    | eps => exact hk s hs
    | cls cc =>
      cases s with
      | nil => rfl
      | cons c cs =>
        simp only [reMatch]
        split
        · exact hk cs fun x hx => hs x (List.mem_cons_of_mem _ hx)
        · rfl
    | cat a b =>
      simp only [reMatch]
      exact ih a s _ hs fun t ht => ih b t k ht hk
    | alt a b =>
      simp only [reMatch]
      rw [ih a s k hs hk, ih b s k hs hk]
    | star r =>
      simp only [reMatch]
      rw [ih r s _ hs ?_, hk s hs]
      intro t ht
      split
      · exact ih (.star r) t k ht hk
      · exact hk t ht

theorem reMatch_none_of_needs (fuel : Nat) :
    ∀ (r : RE) (s : List Char) (k : List Char → Option (List Char)),
    needsNonSpace r = true → (∀ c ∈ s, pySpace c = true) →
    reMatch fuel r s k = none := by
  induction fuel with
  | zero => intro r s k _ _; rfl
  | succ fuel ih =>
    intro r s k hr hs
    cases r with
    | eps => exact Bool.noConfusion hr
    | cls cc =>
      simp only [needsNonSpace, Bool.not_eq_true'] at hr
      cases s with
      | nil => rfl
      | cons c cs =>
        simp only [reMatch]
        rw [ccEval_space_false cc c hr (hs c (List.mem_cons_self c cs))]
        rfl
    | cat a b =>
      simp only [needsNonSpace, Bool.or_eq_true] at hr
      simp only [reMatch]
      rcases hr with ha | hb
      · exact ih a s _ ha hs
      · exact reMatch_none_of_spaces fuel a s _ hs fun t ht => ih b t k hb ht
    | alt a b =>
      simp only [needsNonSpace, Bool.and_eq_true] at hr
      simp only [reMatch]
      rw [ih a s k hr.1 hs, ih b s k hr.2 hs]
    | star r => exact Bool.noConfusion hr

theorem reSearchAux_none_of_spaces (r : RE) (fuel : Nat) (hr : needsNonSpace r = true) :
    ∀ (s : List Char) (i : Nat), (∀ c ∈ s, pySpace c = true) →
    reSearchAux r fuel s i = none := by
  intro s
  induction s with
  | nil =>
    intro i hs
    simp only [reSearchAux]
    rw [reMatch_none_of_needs fuel r [] some hr hs]
  | cons c cs ih =>
    intro i hs
    simp only [reSearchAux]
    rw [reMatch_none_of_needs fuel r (c :: cs) some hr hs]
    exact ih (i + 1) fun x hx => hs x (List.mem_cons_of_mem _ hx)

theorem reSearch_none_of_spaces (r : RE) (s : List Char) (hr : needsNonSpace r = true)
    (hs : ∀ c ∈ s, pySpace c = true) : reSearch r s = none :=
  reSearchAux_none_of_spaces r (reFuel r s) hr s 0 hs

theorem findIter_nil_of_spaces (r : RE) (s : List Char) (hr : needsNonSpace r = true)
    (hs : ∀ c ∈ s, pySpace c = true) : findIter r s = [] := by
  show findIterAux r (s.length + 1) s 0 = []
  simp only [findIterAux]
  rw [reSearch_none_of_spaces r s hr hs]

theorem entityFold_inner_of_spaces (text : String)
    (h : ∀ c ∈ text.toList, pySpace c = true) (g : Nat × List Char → Entity) :
    ∀ (ps : List RE), (∀ p ∈ ps, needsNonSpace p = true) → ∀ (acc : List Entity),
    ps.foldl (fun acc2 p => acc2 ++ (findIter p text.toList).map g) acc = acc := by
  intro ps
  induction ps with
  | nil => intro _ acc; rfl
  | cons p ps ih =>
    intro hp acc
    simp only [List.foldl_cons]
    rw [findIter_nil_of_spaces p text.toList (hp p (List.mem_cons_self p ps)) h]
    simp only [List.map_nil, List.append_nil]
    exact ih (fun q hq => hp q (List.mem_cons_of_mem _ hq)) acc

theorem extractEntities_nil_of_spaces (text : String)
    (h : ∀ c ∈ text.toList, pySpace c = true) : extractEntities text = [] := by
  have htbl : ∀ pr ∈ entityExtractors, ∀ p ∈ pr.2, needsNonSpace p = true := by decide
  unfold extractEntities
  have main : ∀ (tbl : List (String × List RE)),
      (∀ pr ∈ tbl, ∀ p ∈ pr.2, needsNonSpace p = true) → ∀ (acc : List Entity),
      tbl.foldl
        (fun acc pr => pr.2.foldl
          (fun acc2 p => acc2 ++ (findIter p text.toList).map
            (fun sm => ⟨pr.1, String.mk (pyStrip sm.2), 0.8, sm.1, sm.1 + sm.2.length⟩))
          acc)
        acc = acc := by
    intro tbl
    induction tbl with
    | nil => intro _ acc; rfl
    | cons pr tbl ih =>
      intro hp acc
      simp only [List.foldl_cons]
      rw [entityFold_inner_of_spaces text h _ pr.2
        (hp pr (List.mem_cons_self pr tbl)) acc]
      exact ih (fun q hq => hp q (List.mem_cons_of_mem _ hq)) acc
  exact main entityExtractors htbl []

theorem normText_nil_of_spaces (text : String)
    (h : ∀ c ∈ text.toList, pySpace c = true) : normText text = [] := by
  unfold normText pyLower pyStrip
  have hmap : text.toList.map Char.toLower = text.toList := by
    conv_rhs => rw [← List.map_id text.toList]
    exact List.map_congr_left fun c hc => toLower_space c (h c hc)
  rw [hmap]
  have hdrop : text.toList.dropWhile pySpace = [] :=
    List.dropWhile_eq_nil_iff.mpr h
  rw [hdrop]
  rfl

/-- C8: empty or whitespace-only input is recognized as `Unknown` with
confidence `0.0`, an empty entity list, no action, and the original raw text. -/
theorem c8_whitespace_unknown (text : String)
    (h : ∀ c ∈ text.toList, pySpace c = true) :
    recognizeIntent text = ⟨.unknown, 0, [], text, none⟩ := by
  have hn := normText_nil_of_spaces text h
  have hcb : classifyBest [] = ⟨.unknown, 0, none⟩ := by decide
  have hgc : isGeneralChat [] = false := by decide
  have he := extractEntities_nil_of_spaces text h
  unfold recognizeIntent
  rw [hn]
  simp [hcb, hgc, he]

theorem c8_whitespace_unknown_witness :
    (∀ c ∈ "  ".toList, pySpace c = true) ∧
    recognizeIntent "  " = ⟨.unknown, 0, [], "  ", none⟩ :=
  ⟨by decide, c8_whitespace_unknown "  " (by decide)⟩

theorem stepPattern_eq (tl : List Char) (it : IntentType) (acts : List String)
    (b : Best) (p : RE) :
    stepPattern tl it acts b p =
      match reSearch p tl with
      | none => b
      | some sm => updBest b (it, calcConfidence sm.2 tl, extractAction tl acts) := by
  unfold stepPattern updBest ofCand
  cases h : reSearch p tl with
  | none => rfl
  | some sm => rfl

theorem classifyBest_eq_trigger (tl : List Char) :
    classifyBest tl =
      triggerList.foldl (fun b t => stepPattern tl t.1 t.2.2 b t.2.1)
        ⟨.unknown, 0, none⟩ := rfl

theorem foldl_step_filterMap (tl : List Char) :
    ∀ (l : List (IntentType × RE × List String)) (b : Best),
    l.foldl (fun b t => stepPattern tl t.1 t.2.2 b t.2.1) b =
      (l.filterMap (fun t => (reSearch t.2.1 tl).map
        (fun sm => ((t.1, calcConfidence sm.2 tl, extractAction tl t.2.2) : Cand)))).foldl
        updBest b := by
  intro l
  induction l with
  | nil => intro b; rfl
  | cons t ts ih =>
    intro b
    simp only [List.foldl_cons, List.filterMap_cons]
    cases h : reSearch t.2.1 tl with
    | none =>
      have e1 : stepPattern tl t.1 t.2.2 b t.2.1 = b := by rw [stepPattern_eq, h]
      rw [e1]
      simpa using ih b
    | some sm =>
      have e1 : stepPattern tl t.1 t.2.2 b t.2.1 =
          updBest b (t.1, calcConfidence sm.2 tl, extractAction tl t.2.2) := by
        rw [stepPattern_eq, h]
      rw [e1]
      simpa using ih _

theorem updBest_updBest (b : Best) (c d : Cand) :
    updBest (updBest b c) d = updBest b (if c.2.1 < d.2.1 then d else c) := by
  unfold updBest ofCand
  by_cases h1 : b.confidence < c.2.1 <;> by_cases h2 : c.2.1 < d.2.1 <;>
    by_cases h3 : b.confidence < d.2.1 <;>
    simp [h1, h2, h3] <;> first | rfl | linarith

theorem foldl_updBest (l : List Cand) :
    ∀ (b : Best), l.foldl updBest b =
      match firstMaxCand l with
      | none => b
      | some c => updBest b c := by
  induction l with
  | nil => intro b; rfl
  | cons c cs ih =>
    intro b
    simp only [List.foldl_cons, firstMaxCand]
    cases h : firstMaxCand cs with
    | none => rw [ih (updBest b c), h]
    | some d =>
      rw [ih (updBest b c), h]
      dsimp only
      rw [updBest_updBest]
      by_cases hcd : c.2.1 < d.2.1 <;> simp [hcd]

theorem firstMaxCand_mem : ∀ (l : List Cand) (c : Cand), firstMaxCand l = some c → c ∈ l := by
  intro l
  induction l with
  | nil => intro c h; exact Option.noConfusion h
  | cons a as ih =>
    intro c h
    simp only [firstMaxCand] at h
    cases hm : firstMaxCand as with
    | none =>
      rw [hm] at h
      dsimp only at h
      injection h with h
      exact h ▸ List.mem_cons_self a as
    | some d =>
      rw [hm] at h
      dsimp only at h
      by_cases hcd : a.2.1 < d.2.1
      · rw [if_pos hcd] at h
        injection h with h
        exact List.mem_cons_of_mem a (h ▸ ih d hm)
      · rw [if_neg hcd] at h
        injection h with h
        exact h ▸ List.mem_cons_self a as

theorem matchedCands_spec (tl : List Char) (c : Cand) (h : c ∈ matchedCands tl) :
    (0.8 ≤ c.2.1 ∧ c.2.1 ≤ 1) ∧ c.1 ≠ .unknown ∧ c.1 ≠ .general_chat := by
  have htrig : ∀ t ∈ triggerList, t.1 ≠ IntentType.unknown ∧ t.1 ≠ IntentType.general_chat := by
    decide
  unfold matchedCands at h
  rw [List.mem_filterMap] at h
  obtain ⟨t, ht, hmap⟩ := h
  cases hs : reSearch t.2.1 tl with
  | none => rw [hs] at hmap; exact Option.noConfusion hmap
  | some sm =>
    rw [hs] at hmap
    injection hmap with hmap
    subst hmap
    exact ⟨⟨calcConfidence_ge sm.2 tl, calcConfidence_le sm.2 tl⟩, htrig t ht⟩

theorem classify_cases (tl : List Char) :
    classifyBest tl = ⟨.unknown, 0, none⟩ ∨
    ∃ c ∈ matchedCands tl, classifyBest tl = ofCand c := by
  rw [classifyBest_eq_trigger tl, foldl_step_filterMap tl triggerList ⟨.unknown, 0, none⟩]
  have hmc : (triggerList.filterMap (fun t => (reSearch t.2.1 tl).map
      (fun sm => ((t.1, calcConfidence sm.2 tl, extractAction tl t.2.2) : Cand)))) =
      matchedCands tl := rfl
  rw [hmc, foldl_updBest]
  cases h : firstMaxCand (matchedCands tl) with
  | none => exact Or.inl rfl
  | some c =>
    have hmem := firstMaxCand_mem _ c h
    have hlb := (matchedCands_spec tl c hmem).1.1
    right
    refine ⟨c, hmem, ?_⟩
    unfold updBest
    dsimp only
    rw [if_pos]
    show (0 : ℚ) < c.2.1
    linarith

theorem recognize_cases (text : String) :
    ((recognizeIntent text).type = .unknown ∧ (recognizeIntent text).confidence = 0) ∨
    ((recognizeIntent text).type = .general_chat ∧ (recognizeIntent text).confidence = 0.7) ∨
    ((recognizeIntent text).type ≠ .unknown ∧ (recognizeIntent text).type ≠ .general_chat ∧
      0.8 ≤ (recognizeIntent text).confidence ∧ (recognizeIntent text).confidence ≤ 1) := by
  unfold recognizeIntent
  rcases classify_cases (normText text) with h | ⟨c, hc, h⟩
  · by_cases hg : isGeneralChat (normText text)
    · right; left; simp [h, hg]
    · left; simp [h, hg]
  · obtain ⟨⟨h08, h1⟩, hu, hgc⟩ := matchedCands_spec (normText text) c hc
    right; right
    have hcond : ¬((classifyBest (normText text)).intent = IntentType.unknown ∧
        isGeneralChat (normText text) = true) := by
      rw [h]
      intro hand
      exact hu (by simpa [ofCand] using hand.1)
    simp only [hcond, if_false, ite_false]
    simp [h, ofCand, hu, hgc, h08, h1]

/-- C3: for every input text the recognized intent's confidence lies in the
closed interval `[0, 1]`. -/
theorem c3_confidence_in_unit_interval (text : String) :
    0 ≤ (recognizeIntent text).confidence ∧ (recognizeIntent text).confidence ≤ 1 := by
  rcases recognize_cases text with ⟨_, h⟩ | ⟨_, h⟩ | ⟨_, _, h1, h2⟩
  · rw [h]; norm_num
  · rw [h]; norm_num
  · exact ⟨by linarith, h2⟩

/-- C10: every recognized confidence is exactly `0` (type `Unknown`), exactly
`0.7` (type `GeneralChat`), or at least `0.8` with the type outside
`{Unknown, GeneralChat}`; in the last case the coordinator's threshold gate is
passed, so its general-conversation branch is reachable only for `Unknown` or
`GeneralChat` classifications. -/
theorem c10_confidence_stratification (text : String) :
    ((recognizeIntent text).type = .unknown ∧ (recognizeIntent text).confidence = 0) ∨
    ((recognizeIntent text).type = .general_chat ∧ (recognizeIntent text).confidence = 0.7) ∨
    ((recognizeIntent text).type ≠ .unknown ∧ (recognizeIntent text).type ≠ .general_chat ∧
      0.8 ≤ (recognizeIntent text).confidence ∧
      isAssistantTaskGate (recognizeIntent text) = true) := by
  rcases recognize_cases text with ⟨h1, h2⟩ | ⟨h1, h2⟩ | ⟨h1, h2, h3, _⟩
  · exact Or.inl ⟨h1, h2⟩
  · exact Or.inr (Or.inl ⟨h1, h2⟩)
  · refine Or.inr (Or.inr ⟨h1, h2, h3, ?_⟩)
    have : confidenceThreshold ≤ (recognizeIntent text).confidence := by
      unfold confidenceThreshold
      linarith
    simp [isAssistantTaskGate, h1, h2, this]

theorem firstMaxCand_first_argmax :
    ∀ (l : List Cand) (i : Nat) (hi : i < l.length),
    (∀ j (hj : j < l.length), (l.get ⟨j, hj⟩).2.1 ≤ (l.get ⟨i, hi⟩).2.1) →
    (∀ j (hj : j < i), (l.get ⟨j, hj.trans hi⟩).2.1 < (l.get ⟨i, hi⟩).2.1) →
    firstMaxCand l = some (l.get ⟨i, hi⟩) := by
  intro l
  induction l with
  | nil => intro i hi; exact absurd hi (Nat.not_lt_zero i)
  | cons a as ih =>
    intro i hi hmax hfirst
    cases i with
    | zero =>
      simp only [firstMaxCand]
      cases hm : firstMaxCand as with
      | none => rfl
      | some d =>
        have hd : d ∈ as := firstMaxCand_mem as d hm
        obtain ⟨⟨j, hj⟩, hdj⟩ := List.mem_iff_get.mp hd
        have hle := hmax (j + 1) (Nat.succ_lt_succ hj)
        have hle2 : d.2.1 ≤ a.2.1 := by
          rw [← hdj]
          exact hle
        dsimp only
        rw [if_neg (not_lt.mpr hle2)]
        rfl
    | succ i2 =>
      have hi2 : i2 < as.length := Nat.lt_of_succ_lt_succ hi
      have hmax2 : ∀ j (hj : j < as.length),
          (as.get ⟨j, hj⟩).2.1 ≤ (as.get ⟨i2, hi2⟩).2.1 := by
        intro j hj
        exact hmax (j + 1) (Nat.succ_lt_succ hj)
      have hfirst2 : ∀ j (hj : j < i2),
          (as.get ⟨j, hj.trans hi2⟩).2.1 < (as.get ⟨i2, hi2⟩).2.1 := by
        intro j hj
        exact hfirst (j + 1) (Nat.succ_lt_succ hj)
      have h0 : a.2.1 < (as.get ⟨i2, hi2⟩).2.1 := hfirst 0 (Nat.succ_pos i2)
      simp only [firstMaxCand]
      rw [ih i2 hi2 hmax2 hfirst2]
      dsimp only
      rw [if_pos h0]
      rfl

/-- C4: the running best candidate is replaced only on strictly greater
confidence; the traversal examines the intents in catalog-declaration order
(Calendar, Email, Reminder, Weather, News, Search), five patterns each, in
declaration order; consequently the classification result is the
earliest-examined candidate attaining the maximal confidence, so equal
confidences are won by the earlier candidate. -/
theorem c4_strict_improvement_first_wins :
    (triggerList.map (fun t => t.1) =
      [.calendar, .calendar, .calendar, .calendar, .calendar,
       .email, .email, .email, .email, .email,
       .reminder, .reminder, .reminder, .reminder, .reminder,
       .weather, .weather, .weather, .weather, .weather,
       .news, .news, .news, .news, .news,
       .search, .search, .search, .search, .search]) ∧
    (∀ (tl : List Char) (it : IntentType) (acts : List String) (b : Best) (p : RE)
      (st : Nat) (m : List Char), reSearch p tl = some (st, m) →
      calcConfidence m tl ≤ b.confidence → stepPattern tl it acts b p = b) ∧
    (∀ (text : String) (i : Nat) (hi : i < (matchedCands (normText text)).length),
      (∀ j (hj : j < (matchedCands (normText text)).length),
        ((matchedCands (normText text)).get ⟨j, hj⟩).2.1 ≤
          ((matchedCands (normText text)).get ⟨i, hi⟩).2.1) →
      (∀ j (hj : j < i),
        ((matchedCands (normText text)).get ⟨j, hj.trans hi⟩).2.1 <
          ((matchedCands (normText text)).get ⟨i, hi⟩).2.1) →
      classifyBest (normText text) = ofCand ((matchedCands (normText text)).get ⟨i, hi⟩)) := by
  refine ⟨by decide, ?_, ?_⟩
  · intro tl it acts b p st m hsearch hle
    rw [stepPattern_eq, hsearch]
    unfold updBest
    dsimp only
    rw [if_neg (not_lt.mpr hle)]
  · intro text i hi hmax hfirst
    rw [classifyBest_eq_trigger, foldl_step_filterMap]
    have hmc : (triggerList.filterMap (fun t => (reSearch t.2.1 (normText text)).map
        (fun sm => ((t.1, calcConfidence sm.2 (normText text),
          extractAction (normText text) t.2.2) : Cand)))) =
        matchedCands (normText text) := rfl
    rw [hmc, foldl_updBest, firstMaxCand_first_argmax _ i hi hmax hfirst]
    dsimp only
    have hmem : (matchedCands (normText text)).get ⟨i, hi⟩ ∈ matchedCands (normText text) :=
      List.get_mem _ _ hi
    have hlb := (matchedCands_spec _ _ hmem).1.1
    unfold updBest
    dsimp only
    rw [if_pos]
    show (0 : ℚ) < ((matchedCands (normText text)).get ⟨i, hi⟩).2.1
    linarith

set_option maxRecDepth 100000 in
theorem c4_strict_improvement_first_wins_witness :
    ∃ hi : 0 < (matchedCands (normText remindText)).length,
      classifyBest (normText remindText) =
        ofCand ((matchedCands (normText remindText)).get ⟨0, hi⟩) := by
  have hi : 0 < (matchedCands (normText remindText)).length := by
    with_unfolding_all decide
  refine ⟨hi, c4_strict_improvement_first_wins.2.2 remindText 0 hi ?_ ?_⟩
  · have hlen : (matchedCands (normText remindText)).length = 1 := by
      with_unfolding_all decide
    intro j hj
    have hj0 : j = 0 := by omega
    subst hj0
    exact le_refl _
  · intro j hj
    exact absurd hj (Nat.not_lt_zero j)

set_option maxRecDepth 1000000 in
/-- C1 (code-bug evidence): the weather example utterance advertised by
`get_capabilities` is classified as `Unknown` with confidence `0.0` (no trigger
pattern tolerates the apostrophe in `what` + apostrophe + `s`), so the
coordinator takes the general-conversation branch instead of executing the
weather handler. -/
theorem c1_weather_example_misrecognized :
    (recognizeIntent c1text).type = .unknown ∧
    (recognizeIntent c1text).confidence = 0 ∧
    isAssistantTaskGate (recognizeIntent c1text) = false ∧
    (processRequest (refHandlers okUnitHandler okUnitHandler okUnitHandler)
      ⟨c1text, "u", ()⟩).is_assistant_task = false ∧
    (processRequest (refHandlers okUnitHandler okUnitHandler okUnitHandler)
      ⟨c1text, "u", ()⟩).requires_followup = false ∧
    c1text ∈ capabilitiesWeatherExamples := by
  refine ⟨?_, ?_, ?_, ?_, ?_, List.mem_cons_self _ _⟩ <;> with_unfolding_all rfl

theorem processRequest_followup_eq (Ctx Data : Type)
    (handlers : IntentType → Option (Handler Ctx Data)) (req : AssistantRequest Ctx)
    (hd : Handler Ctx Data)
    (hgate : isAssistantTaskGate (recognizeIntent req.text) = true)
    (hhand : handlers (recognizeIntent req.text).type = some hd)
    (hmiss : checkMissingEntities (recognizeIntent req.text).entities
      (getRequiredEntities (recognizeIntent req.text).type
        (recognizeIntent req.text).action) ≠ []) :
    processRequest handlers req =
      ⟨true, "I need a bit more information to help you with that.",
        (recognizeIntent req.text).type.value, (recognizeIntent req.text).confidence,
        none, none, true,
        some (generateFollowupQuestion (recognizeIntent req.text).type
          (recognizeIntent req.text).action
          (checkMissingEntities (recognizeIntent req.text).entities
            (getRequiredEntities (recognizeIntent req.text).type
              (recognizeIntent req.text).action))), true⟩ := by
  unfold processRequest processRequestBody
  dsimp only
  rw [hgate, hhand]
  dsimp only
  rw [if_pos hmiss]
  rfl

set_option maxRecDepth 1000000 in
set_option maxHeartbeats 1000000 in
/-- C6: for `"Remind me to call mom"` the recognizer resolves
`(Reminder, create)`, extracts no datetime and no topic entity, so the missing
required kinds are exactly `[datetime, topic]` in that order, and the
coordinator returns a follow-up response with the combined two-kind question,
independent of the registered handlers (the reminder handler is not invoked). -/
theorem c6_remind_followup (Ctx Data : Type) (w r s : Handler Ctx Data)
    (uid : String) (ctx : Ctx) :
    (recognizeIntent remindText).type = .reminder ∧
    (recognizeIntent remindText).action = some "create" ∧
    (recognizeIntent remindText).entities.filter (fun e => e.type == "datetime") = [] ∧
    (recognizeIntent remindText).entities.filter (fun e => e.type == "topic") = [] ∧
    getRequiredEntities (recognizeIntent remindText).type (recognizeIntent remindText).action
      = ["datetime", "topic"] ∧
    checkMissingEntities (recognizeIntent remindText).entities
      (getRequiredEntities (recognizeIntent remindText).type
        (recognizeIntent remindText).action) = ["datetime", "topic"] ∧
    processRequest (refHandlers w r s) ⟨remindText, uid, ctx⟩ =
      ⟨true, "I need a bit more information to help you with that.", "reminder", 6 / 7,
        none, none, true, some c6Question, true⟩ := by
  have hrec : recognizeIntent remindText =
      ⟨.reminder, 6 / 7, [⟨"person", "to call mom", 0.8, 10, 21⟩], remindText,
        some "create"⟩ := by
    with_unfolding_all rfl
  have htext : (⟨remindText, uid, ctx⟩ : AssistantRequest Ctx).text = remindText := rfl
  have h7 := processRequest_followup_eq Ctx Data (refHandlers w r s)
    ⟨remindText, uid, ctx⟩ r
    (by rw [htext, hrec]; with_unfolding_all decide)
    (by rw [htext, hrec]; rfl)
    (by rw [htext, hrec]; with_unfolding_all decide)
  rw [htext, hrec] at h7
  refine ⟨?_, ?_, ?_, ?_, ?_, ?_, ?_⟩
  · rw [hrec]
  · rw [hrec]
  · rw [hrec]
    with_unfolding_all rfl
  · rw [hrec]
    with_unfolding_all rfl
  · rw [hrec]
    rfl
  · rw [hrec]
    with_unfolding_all rfl
  · rw [h7]
    with_unfolding_all rfl

/-- C7 (amended): a recognized non-conversational intent above the threshold
whose type has no registered handler yields the terminal response with
`success = false`, `is_assistant_task = true` and
`error = "No handler available for <type>"` (capital `N`), without reaching the
missing-entity gate or any handler. -/
theorem c7_no_handler_terminal (Ctx Data : Type) (w r s : Handler Ctx Data)
    (uid : String) (ctx : Ctx) (text : String)
    (h1 : (recognizeIntent text).type ≠ .unknown)
    (h2 : (recognizeIntent text).type ≠ .general_chat)
    (h3 : confidenceThreshold ≤ (recognizeIntent text).confidence)
    (h4 : refHandlers w r s (recognizeIntent text).type = none) :
    processRequest (refHandlers w r s) ⟨text, uid, ctx⟩ =
      ⟨false,
        "I understand you want help with " ++ (recognizeIntent text).type.value ++
          ", but that feature isn" ++ aposS ++ "t available yet.",
        (recognizeIntent text).type.value, (recognizeIntent text).confidence, none,
        some ("No handler available for " ++ (recognizeIntent text).type.value),
        false, none, true⟩ := by
  have hgate : isAssistantTaskGate (recognizeIntent text) = true := by
    simp [isAssistantTaskGate, h1, h2, h3]
  unfold processRequest processRequestBody
  dsimp only
  rw [hgate, h4]
  rfl

theorem c7_no_handler_terminal_witness :
    processRequest (refHandlers okUnitHandler okUnitHandler okUnitHandler)
      ⟨"schedule a meeting", "u", ()⟩ =
      ⟨false,
        "I understand you want help with calendar, but that feature isn" ++ aposS ++
          "t available yet.",
        "calendar", 1, none, some "No handler available for calendar",
        false, none, true⟩ := by
  have h := c7_no_handler_terminal Unit Unit okUnitHandler okUnitHandler okUnitHandler
    "u" () "schedule a meeting" (by with_unfolding_all decide)
    (by with_unfolding_all decide) (by with_unfolding_all decide)
    (by with_unfolding_all rfl)
  rw [h]
  with_unfolding_all rfl

theorem c7_no_handler_counterexample :
    (recognizeIntent "schedule a meeting").type = .calendar ∧
    confidenceThreshold ≤ (recognizeIntent "schedule a meeting").confidence ∧
    refHandlers okUnitHandler okUnitHandler okUnitHandler IntentType.calendar = none ∧
    (processRequest (refHandlers okUnitHandler okUnitHandler okUnitHandler)
      ⟨"schedule a meeting", "u", ()⟩).error = some "No handler available for calendar" ∧
    (processRequest (refHandlers okUnitHandler okUnitHandler okUnitHandler)
      ⟨"schedule a meeting", "u", ()⟩).error ≠ some "no handler available for calendar" :=
  ⟨by with_unfolding_all rfl, by with_unfolding_all decide, rfl,
    by with_unfolding_all rfl, by with_unfolding_all decide⟩

/-- C9: whenever more than one required kind is missing, the missing list keeps
the requirement list's order (it is a sublist of it), and the follow-up
question is the comma-separated join of the per-kind template lookups, with the
kind's own name as fallback for unmapped combinations. -/
theorem c9_multi_missing_joined (it : IntentType) (act : Option String)
    (entities : List Entity) (required : List String)
    (h : 1 < (checkMissingEntities entities required).length) :
    List.Sublist (checkMissingEntities entities required) required ∧
    generateFollowupQuestion it act (checkMissingEntities entities required) =
      "I need to know: " ++ String.intercalate ", "
        ((checkMissingEntities entities required).map
          (fun e => ((questionsFor it).lookup e).getD e)) := by
  constructor
  · exact List.filter_sublist _
  · generalize hm : checkMissingEntities entities required = missing at h
    cases missing with
    | nil => simp at h
    | cons a t =>
      cases t with
      | nil => simp at h
      | cons b t2 => rfl

theorem c9_multi_missing_joined_witness :
    1 < (checkMissingEntities [] ["datetime", "topic"]).length ∧
    (List.Sublist (checkMissingEntities [] ["datetime", "topic"]) ["datetime", "topic"] ∧
      generateFollowupQuestion .reminder (some "create")
          (checkMissingEntities [] ["datetime", "topic"]) =
        "I need to know: " ++ String.intercalate ", "
          ((checkMissingEntities [] ["datetime", "topic"]).map
            (fun e => ((questionsFor .reminder).lookup e).getD e))) :=
  ⟨by decide,
    c9_multi_missing_joined .reminder (some "create") [] ["datetime", "topic"] (by decide)⟩
